import Mathlib

/-!
Shallow embedding of the data-pack builder core
(`backend/src/services/data_pack_builder.py`) and proofs about it.

Modelling conventions:
* A calendar date is modelled as `Int`, the (signed) day number of the date;
  the ordering of dates and day differences between dates are the integer
  ones.  `isoformat` is modelled by an injective rendering of the day number
  (the exact text of the rendering never matters to any statement below,
  only that distinct dates render to distinct strings and the same date
  always renders the same way).
* Python floats are modelled as rationals (`ℚ`).  `round(x, 4)` is modelled
  by `round4` below; no statement in this file depends on the behaviour of
  rounding at ties, where binary floats and rationals could differ.
* `datetime.date.today()` and `datetime.utcnow()` are ambient inputs of the
  Python code and become explicit parameters (`today`, `pulled_at`).
* The database-backed collaborators (`series_repo.find_by_source`,
  `series_service.fetch_ons_series`, `series_service.fetch_oecd_series`) and
  the `dateutil`-backed period parser are I/O boundaries; they become
  function parameters of `buildDataPack`.  A fetched row is modelled after
  the value coercion of `build_data_pack` lines 167-172 (`float(value)`,
  with non-numeric input coerced to `None`): its `value` is `Option ℚ`.
* Python code that raises is modelled in `Except String`; the error string
  names the Python exception.
-/

namespace DataPackBuilder

/-- A calendar date, as a signed day number. -/
abbrev Date := Int

/-- Injective rendering of a date, modelling `date.isoformat()`. -/
def isoformat (d : Date) : String := toString d

/-- One parsed observation: `(period, value)` with both fields nullable,
exactly the tuples `build_data_pack` feeds to `_derive_stats` and
`_quality_checks`. -/
abbrev Obs := Option Date × Option ℚ

/-- `FREQUENCY_TO_PERIODS.get(frequency, 12)`: the module-level dict
`{"M": 12, "Q": 4, "A": 1}` with default 12. -/
def FREQUENCY_TO_PERIODS (frequency : String) : Nat :=
  if frequency = "M" then 12
  else if frequency = "Q" then 4
  else if frequency = "A" then 1
  else 12

/-- `round(x, 4)`: round to 4 decimal places.  Mathlib `round` rounds
half-up while CPython floats round half-to-even; no claim below touches a
tie, so the difference is immaterial. -/
def round4 (x : ℚ) : ℚ := (round (x * 10000) : ℚ) / 10000

/-- `statistics.mean` on a non-empty list (callers guard non-emptiness). -/
def listMean (l : List ℚ) : ℚ := l.sum / (l.length : ℚ)

/-- Insert one keyed pair into a list sorted ascending by key, before the
first element whose key is `≥` the inserted key. -/
def insertSorted {β : Type} (x : Date × β) : List (Date × β) → List (Date × β)
  | [] => [x]
  | y :: ys => if x.1 ≤ y.1 then x :: y :: ys else y :: insertSorted x ys

/-- Stable ascending sort by the date key, modelling
`sorted(pairs, key=lambda item: item[0])` (CPython `sorted` is stable;
insertion before the first greater-or-equal key reproduces stability). -/
def sortByPeriod {β : Type} : List (Date × β) → List (Date × β)
  | [] => []
  | x :: xs => insertSorted x (sortByPeriod xs)

/-- The result dict of `_derive_stats`; a missing dict key is `none`. -/
structure DerivedStats where
  latest_period : Option String := none
  latest_value : Option ℚ := none
  mom_change : Option ℚ := none
  yoy_change : Option ℚ := none
  rolling_3m_avg : Option ℚ := none
  rolling_12m_avg : Option ℚ := none
  min : Option ℚ := none
  max : Option ℚ := none
deriving DecidableEq, Repr

/-- Python `ordered[-k:]`: the last `k` elements, except that `k = 0` gives
the whole list (CPython slice semantics of `l[-0:]`). -/
def pyTakeLast {α : Type} (k : Nat) (l : List α) : List α :=
  if k = 0 then l else l.drop (l.length - k)

/-- Lines 36-67 of `_derive_stats`, applied to the already filtered and
sorted list `ordered` (every retained value is non-null, so the source
guards `prev_value is not None`, `comparison is not None`,
`latest_value is not None` and the `value is not None` window filters are
always satisfied and do not reappear here).  `ppy` is `periods_per_year`. -/
def deriveStatsOrdered (ordered : List (Date × ℚ)) (ppy : Nat) : DerivedStats :=
  if ordered.isEmpty then {}
  else
    let n := ordered.length
    let latest := ordered.getD (n - 1) (0, 0)
    let momChange : Option ℚ :=
      if 2 ≤ n then some (round4 (latest.2 - (ordered.getD (n - 2) (0, 0)).2))
      else none
    let yoyChange : Option ℚ :=
      if ppy < n then some (round4 (latest.2 - (ordered.getD (n - 1 - ppy) (0, 0)).2))
      else none
    let rolling3 : Option ℚ :=
      if 3 ≤ n then some (round4 (listMean ((pyTakeLast 3 ordered).map (·.2))))
      else none
    let rolling12 : Option ℚ :=
      if ppy ≤ n then
        let window := (pyTakeLast ppy ordered).map (·.2)
        if window.isEmpty then none else some (round4 (listMean window))
      else none
    { latest_period := some (isoformat latest.1)
      latest_value := some latest.2
      mom_change := momChange
      yoy_change := yoyChange
      rolling_3m_avg := rolling3
      rolling_12m_avg := rolling12
      min := (ordered.map (·.2)).min?
      max := (ordered.map (·.2)).max? }

/-- The list comprehension of `_derive_stats` line 35: keep entries whose
value is non-null (the period is NOT examined by the source filter). -/
def keptEntries (values : List Obs) : List (Option Date × ℚ) :=
  values.filterMap (fun pv => pv.2.map (fun v => (pv.1, v)))

/-- `_derive_stats(values, frequency)`.  If any retained entry has a null
period the CPython code raises: with two or more retained entries,
`sorted(..., key=lambda item: item[0])` compares a `None` key and raises
`TypeError`; with exactly one retained entry whose period is `None`, line 41
calls `None.isoformat()` and raises `AttributeError`.  Either way the call
fails exactly when some value-bearing entry has a null period, which is the
error case below. -/
def deriveStats (values : List Obs) (frequency : String) :
    Except String DerivedStats :=
  let kept := keptEntries values
  if kept.any (fun e => e.1.isNone) then
    Except.error "TypeError/AttributeError: None period among value-bearing entries"
  else
    let orderedPairs :=
      sortByPeriod (kept.filterMap (fun e => e.1.map (fun d => (d, e.2))))
    Except.ok (deriveStatsOrdered orderedPairs (FREQUENCY_TO_PERIODS frequency))

/-- One `{name, ok, detail}` quality check dict. -/
structure Check where
  name : String
  ok : Bool
  detail : String
deriving DecidableEq, Repr

/-- The list comprehension of `_quality_checks` line 73: keep entries whose
period is truthy (a `date` object is always truthy, `None` is falsy), the
value riding along. -/
def periodBearing (observations : List Obs) : List (Date × Option ℚ) :=
  observations.filterMap (fun o => o.1.map (fun d => (d, o.2)))

/-- The sorted period-bearing entry list of `_quality_checks` line 73. -/
def orderedPeriodBearing (observations : List Obs) : List (Date × Option ℚ) :=
  sortByPeriod (periodBearing observations)

/-- The missing-period labels of `_quality_checks` line 92:
`[period.isoformat() for period, value in ordered if value is None]`. -/
def missingLabels (ordered : List (Date × Option ℚ)) : List String :=
  ordered.filterMap (fun pv => if pv.2 = none then some (isoformat pv.1) else none)

/-- `_quality_checks(observations, frequency)` with `date.today()` passed in
as `today`.  Returns the `(status, checks, limitations)` triple.  The guard
`if not ordered or len(ordered) < 3` on line 106 can only fire through its
second disjunct, because the empty case already returned on line 75. -/
def qualityChecks (observations : List Obs) (frequency : String) (today : Date) :
    String × List Check × List String :=
  let ordered := orderedPeriodBearing observations
  match ordered.getLast? with
  | none =>
      ("red", [{ name := "availability", ok := false,
                 detail := "No observations available." }],
       ["No observations available."])
  | some latest =>
      let latestPeriod := latest.1
      let toleranceDays : Int := if frequency = "M" then 40 else 120
      let isFresh : Bool := today - latestPeriod ≤ toleranceDays
      let freshnessCheck : Check :=
        { name := "freshness", ok := isFresh,
          detail := "Latest period " ++ isoformat latestPeriod ++ " (" ++
            (if isFresh then "fresh" else "stale") ++ ")" }
      let freshnessLimits : List String :=
        if isFresh then [] else ["Latest data is older than expected cadence."]
      let total := ordered.length
      let missing := missingLabels ordered
      let missingCheck : Check :=
        { name := "missing_values", ok := missing.length = 0,
          detail := toString missing.length ++ " missing points out of " ++
            toString total }
      let missingLimits : List String :=
        if missing.isEmpty then []
        else ["Missing values for " ++ String.intercalate ", " (missing.take 5)]
      let checks := [freshnessCheck, missingCheck]
      let status0 := if checks.any (fun c => !c.ok) then "amber" else "green"
      if ordered.length < 3 then
        ("red", checks,
         freshnessLimits ++ missingLimits ++
           ["Insufficient lookback window to compute deltas."])
      else
        (status0, checks, freshnessLimits ++ missingLimits)

/-- Python truthy-`or` on two nullable strings: `a or b` falls through when
`a` is `None` or the empty string (the only falsy strings). -/
def orTruthy (a b : Option String) : Option String :=
  match a with
  | some s => if s = "" then b else some s
  | none => b

/-- Python truthy-`or` against a string default: `a or dflt`. -/
def orTruthyD (a : Option String) (dflt : String) : String :=
  match a with
  | some s => if s = "" then dflt else s
  | none => dflt

/-- One series-configuration record, as returned by
`series_repo.find_by_source` (a database row; absent/NULL columns are
`none`).  `updated_at` is carried as its already-rendered ISO string, which
is all `build_data_pack` keeps of it (lines 179-181). -/
structure Config where
  provider : String
  frequency : Option String := none
  metadataFrequency : Option String := none
  slug : Option String := none
  series_id : Option String := none
  dataset_id : Option String := none
  dataset_code : Option String := none
  location : Option String := none
  subject : Option String := none
  measure : Option String := none
  unit : Option String := none
  description : Option String := none
  updated_at : Option String := none
deriving DecidableEq, Repr

/-- Python `str.upper()`, as a character-wise map (the frequency codes it
is applied to are plain ASCII). -/
def pyUpper (s : String) : String := ⟨s.data.map Char.toUpper⟩

/-- `_determine_frequency(meta)`:
`(meta.get("frequency") or meta.get("metadata", {}).get("frequency") or "M").upper()`. -/
def determineFrequency (meta : Config) : String :=
  pyUpper (orTruthyD (orTruthy meta.frequency meta.metadataFrequency) "M")

/-- One caller-supplied series selection. -/
structure Selection where
  source : String
  source_series_id : String
  dataset_id : Option String := none
  «alias» : Option String := none
deriving DecidableEq, Repr

/-- One fetched observation row, after the numeric coercion of
`build_data_pack` lines 167-172: `value` is the result of `float(...)`,
with an absent or non-numeric raw value coerced to `none`. -/
structure Row where
  period_label : String
  value : Option ℚ := none
deriving DecidableEq, Repr

/-- The `options` mapping: a key absent from the dict is `none`. -/
structure Options where
  lookback_periods : Option Nat := none
  as_of : Option String := none
deriving DecidableEq, Repr

/-- Line 137: the per-series fetch limit `max(lookback_periods + 4, 12)`. -/
def fetchLimit (lookback_periods : Nat) : Nat :=
  max (lookback_periods + 4) 12

/-- One emitted observation dict (lines 194-197).  The filter `if obs[0]`
of the comprehension guarantees the period is present, so `period_start`
is always the rendered period (the `else None` branch of line 195 is
unreachable). -/
structure ObsOut where
  period_start : Option String
  value : Option ℚ
deriving DecidableEq, Repr

/-- Lines 193-200: the emitted observation list,
`[{...} for obs in observations[:lookback_periods] if obs[0]]` — the raw
list is truncated to its first `lookback_periods` entries FIRST, and only
then are entries without a parsed period dropped. -/
def emittedObservations (lookback_periods : Nat) (observations : List Obs) :
    List ObsOut :=
  (observations.take lookback_periods).filterMap
    (fun obs => obs.1.map (fun d => { period_start := some (isoformat d),
                                      value := obs.2 }))

/-- The provenance block (lines 202-205). -/
structure Provenance where
  pulled_at : String
  ingested_at : Option String
deriving DecidableEq, Repr

/-- One per-series payload dict (lines 183-209). -/
structure SeriesPayload where
  series_key : Option String
  series_id : String
  source : String
  source_series_id : String
  name : Option String
  unit : Option String
  frequency : String
  latest_period : Option String
  observations : List ObsOut
  derived : DerivedStats
  provenance : Provenance
  quality_status : String
  quality_checks : List Check
deriving DecidableEq, Repr

/-- The dict passed to `_hash_payload` on line 233:
`{"topic": topic, "series": series_payloads}`.  `_hash_payload` serializes
it with `json.dumps(payload, sort_keys=True)` and digests the bytes with
SHA-256; the canonical serialization is injective on these structures, so
the hash input is recorded as the structure itself: equal digests of
well-formed payloads correspond to equal structures (up to SHA-256
collisions), and distinct structures serialize to distinct byte strings. -/
structure HashInput where
  topic : String
  series : List SeriesPayload
deriving DecidableEq, Repr

/-- The pack-level quality block (lines 222-231). -/
structure QualityBlock where
  status : String
  checks : List Check
deriving DecidableEq, Repr

/-- The assembled data pack (lines 217-234), with the hash field carried as
the structure that `_hash_payload` digests (see `HashInput`). -/
structure DataPack where
  topic : String
  as_of : String
  lookback_periods : Nat
  series : List SeriesPayload
  quality : QualityBlock
  data_limitations : List String
  data_pack_hash_payload : HashInput
deriving DecidableEq, Repr

/-- The external collaborators of `build_data_pack`, passed as functions:
the configuration lookup, the two store fetchers (receiving the same
arguments the source passes, `limit` last) and the `dateutil`-backed
period parser `_parse_period`, whose accept-set lives outside this
repository and is modelled by its result. -/
structure Collaborators where
  find_by_source : String → String → Option Config
  fetch_ons_series : Option String → Option String → Nat → List Row
  fetch_oecd_series : Option String → String → String → String → String → Nat → List Row
  parse_period : String → Option Date
  today : Date
  pulled_at : String

/-- Line 186: `str(config.get("series_id") or config.get("slug"))` — the
truthy `or` of the two nullable fields, rendered through `str` (CPython
renders `None` as the string `"None"`). -/
def seriesIdField (config : Config) : String :=
  match orTruthy config.series_id config.slug with
  | some s => s
  | none => "None"

/-- Lines 164-209: parse and coerce the fetched rows, run `_derive_stats`
and `_quality_checks`, and build the per-series payload (or propagate the
exception `_derive_stats` raises). -/
def processRows (env : Collaborators) (lookback_periods : Nat)
    (selection : Selection) (config : Config) (rows : List Row) :
    Except String (Option SeriesPayload × List String) :=
  match deriveStats
      (rows.map (fun row => (env.parse_period row.period_label, row.value)))
      (determineFrequency config) with
  | Except.error e => Except.error e
  | Except.ok derived =>
      let frequency := determineFrequency config
      let observations : List Obs :=
        rows.map (fun row => (env.parse_period row.period_label, row.value))
      let qc := qualityChecks observations frequency env.today
      let payload : SeriesPayload :=
        { series_key := orTruthy selection.«alias» config.slug
          series_id := seriesIdField config
          source := config.provider
          source_series_id := selection.source_series_id
          name := orTruthy config.description config.slug
          unit := config.unit
          frequency := frequency
          latest_period := derived.latest_period
          observations := emittedObservations lookback_periods observations
          derived := derived
          provenance := { pulled_at := env.pulled_at,
                          ingested_at := config.updated_at }
          quality_status := qc.1
          quality_checks := qc.2.1 }
      Except.ok (some payload, qc.2.2)

/-- Lines 140-162: dispatch on the provider tag and fetch the raw rows with
the computed limit; an unsupported provider yields no rows (`none`), which
the caller turns into a limitation and a skip. -/
def fetchRows (env : Collaborators) (config : Config) (selection : Selection)
    (limit : Nat) : Option (List Row) :=
  if config.provider = "ONS" then
    some (env.fetch_ons_series config.series_id
      (orTruthy selection.dataset_id config.dataset_id) limit)
  else if config.provider = "OECD" then
    some (env.fetch_oecd_series config.dataset_code
      (orTruthyD config.location "GBR") (orTruthyD config.subject "")
      (orTruthyD config.measure "") (orTruthyD config.frequency "") limit)
  else none

/-- The body of the `for selection in selected_series` loop (lines
129-209) for one selection: returns the payload to append (if any) and the
limitation strings this iteration appends, or the exception the iteration
raises. -/
def processOne (env : Collaborators) (lookback_periods : Nat)
    (selection : Selection) :
    Except String (Option SeriesPayload × List String) :=
  match env.find_by_source selection.source selection.source_series_id with
  | none =>
      Except.ok (none,
        ["Series " ++ selection.source ++ ":" ++ selection.source_series_id ++
         " not configured."])
  | some config =>
      match fetchRows env config selection (fetchLimit lookback_periods) with
      | none =>
          Except.ok (none,
            ["Provider " ++ config.provider ++ " not supported in data pack."])
      | some rows => processRows env lookback_periods selection config rows

/-- The whole selection loop: payloads and limitation strings accumulated
in input order, or the first exception raised. -/
def processSelections (env : Collaborators) (lookback_periods : Nat) :
    List Selection → Except String (List SeriesPayload × List String)
  | [] => Except.ok ([], [])
  | selection :: rest =>
      match processOne env lookback_periods selection with
      | Except.error e => Except.error e
      | Except.ok (payload?, limits) =>
          match processSelections env lookback_periods rest with
          | Except.error e => Except.error e
          | Except.ok (payloads, laterLimits) =>
              Except.ok (payload?.toList ++ payloads, limits ++ laterLimits)

/-- Lines 211-215: the aggregate quality status over the emitted series. -/
def aggregateStatus (series_payloads : List SeriesPayload) : String :=
  if series_payloads.any (fun s => s.quality_status == "red") then "red"
  else if series_payloads.any (fun s => s.quality_status == "amber") then "amber"
  else "green"

/-- `build_data_pack(topic=..., selected_series=..., options=...)` with the
I/O collaborators and the two ambient timestamps supplied through `env`. -/
def buildDataPack (env : Collaborators) (topic : String)
    (selected_series : List Selection) (options : Options) :
    Except String DataPack :=
  let lookback_periods := options.lookback_periods.getD 24
  match processSelections env lookback_periods selected_series with
  | Except.error e => Except.error e
  | Except.ok (series_payloads, limitations) =>
      Except.ok
        { topic := topic
          as_of := options.as_of.getD "latest"
          lookback_periods := lookback_periods
          series := series_payloads
          quality :=
            { status := aggregateStatus series_payloads
              checks := [{ name := "coverage", ok := !series_payloads.isEmpty
                           detail := toString series_payloads.length ++
                             " series included." }] }
          data_limitations := limitations
          data_pack_hash_payload := { topic := topic, series := series_payloads } }

/-! ## Helper lemmas -/

theorem length_insertSorted {β : Type} (x : Date × β) (l : List (Date × β)) :
    (insertSorted x l).length = l.length + 1 := by
  induction l with
  | nil => rfl
  | cons y ys ih =>
      unfold insertSorted
      split
      · simp
      · simp [ih]

theorem length_sortByPeriod {β : Type} (l : List (Date × β)) :
    (sortByPeriod l).length = l.length := by
  induction l with
  | nil => rfl
  | cons x xs ih => simp [sortByPeriod, length_insertSorted, ih]

theorem sortByPeriod_eq_nil_iff {β : Type} (l : List (Date × β)) :
    sortByPeriod l = [] ↔ l = [] := by
  constructor
  · intro h
    have := length_sortByPeriod l
    rw [h] at this
    exact List.length_eq_zero.mp this.symm
  · intro h
    rw [h]
    rfl

theorem round4_round4 (x : ℚ) : round4 (round4 x) = round4 x := by
  unfold round4
  rw [div_mul_cancel₀ _ (by norm_num : (10000 : ℚ) ≠ 0), round_intCast]

theorem deriveStatsOrdered_yoy (ordered : List (Date × ℚ)) (ppy : Nat) :
    (deriveStatsOrdered ordered ppy).yoy_change =
      if ppy < ordered.length then
        some (round4 ((ordered.getD (ordered.length - 1) (0, 0)).2 -
          (ordered.getD (ordered.length - 1 - ppy) (0, 0)).2))
      else none := by
  unfold deriveStatsOrdered
  by_cases h : ordered.isEmpty
  · rw [List.isEmpty_iff] at h
    subst h
    simp
  · simp only [h, Bool.false_eq_true, if_false]

theorem emittedObservations_eq (lb : Nat) (obs : List Obs) :
    emittedObservations lb obs =
      ((obs.take lb).filter (fun o => o.1.isSome)).map
        (fun o => { period_start := o.1.map isoformat, value := o.2 }) := by
  unfold emittedObservations
  induction obs.take lb with
  | nil => rfl
  | cons o rest ih =>
      rcases o with ⟨p, v⟩
      cases p with
      | none => simpa [List.filterMap_cons, List.filter_cons] using ih
      | some d => simpa [List.filterMap_cons, List.filter_cons] using ih

theorem length_emittedObservations_le (lb : Nat) (obs : List Obs) :
    (emittedObservations lb obs).length ≤ lb := by
  unfold emittedObservations
  calc ((obs.take lb).filterMap _).length ≤ (obs.take lb).length :=
        List.length_filterMap_le _ _
    _ ≤ lb := List.length_take_le _ _

theorem processRows_obs (env : Collaborators) (lb : Nat) (sel : Selection)
    (config : Config) (rows : List Row)
    (payload? : Option SeriesPayload) (limits : List String)
    (h : processRows env lb sel config rows = Except.ok (payload?, limits)) :
    ∀ p, payload? = some p →
      p.observations =
        emittedObservations lb
          (rows.map (fun row => (env.parse_period row.period_label, row.value))) := by
  simp only [processRows] at h
  split at h
  · simp at h
  · simp only [Except.ok.injEq, Prod.mk.injEq] at h
    intro p hp
    rw [← h.1] at hp
    simp only [Option.some.injEq] at hp
    rw [← hp]

theorem processOne_obs_len (env : Collaborators) (lb : Nat) (sel : Selection)
    (payload? : Option SeriesPayload) (limits : List String)
    (h : processOne env lb sel = Except.ok (payload?, limits)) :
    ∀ p, payload? = some p → p.observations.length ≤ lb := by
  simp only [processOne] at h
  split at h
  · simp only [Except.ok.injEq, Prod.mk.injEq] at h
    intro p hp
    rw [← h.1] at hp
    cases hp
  · split at h
    · simp only [Except.ok.injEq, Prod.mk.injEq] at h
      intro p hp
      rw [← h.1] at hp
      cases hp
    · intro p hp
      rw [processRows_obs _ _ _ _ _ _ _ h p hp]
      exact length_emittedObservations_le _ _

theorem processOne_fetch28 (env : Collaborators) (sel : Selection) :
    processOne env 24 sel =
      processOne
        { env with
          fetch_ons_series := fun a b _ => env.fetch_ons_series a b 28
          fetch_oecd_series := fun a b c d e _ => env.fetch_oecd_series a b c d e 28 }
        24 sel := rfl

theorem processSelections_fetch28 (env : Collaborators) (sels : List Selection) :
    processSelections env 24 sels =
      processSelections
        { env with
          fetch_ons_series := fun a b _ => env.fetch_ons_series a b 28
          fetch_oecd_series := fun a b c d e _ => env.fetch_oecd_series a b c d e 28 }
        24 sels := by
  induction sels with
  | nil => rfl
  | cons sel rest ih =>
      unfold processSelections
      rw [← processOne_fetch28, ← ih]

theorem processSelections_obs_len (env : Collaborators) (lb : Nat)
    (sels : List Selection) (payloads : List SeriesPayload) (limits : List String)
    (h : processSelections env lb sels = Except.ok (payloads, limits)) :
    ∀ p ∈ payloads, p.observations.length ≤ lb := by
  induction sels generalizing payloads limits with
  | nil =>
      unfold processSelections at h
      simp only [Except.ok.injEq, Prod.mk.injEq] at h
      intro p hp
      rw [← h.1] at hp
      cases hp
  | cons sel rest ih =>
      unfold processSelections at h
      cases h1 : processOne env lb sel with
      | error e => rw [h1] at h; simp at h
      | ok pr =>
          obtain ⟨payload?, limits1⟩ := pr
          rw [h1] at h
          cases h2 : processSelections env lb rest with
          | error e => rw [h2] at h; simp at h
          | ok pr2 =>
              obtain ⟨ps, ls⟩ := pr2
              rw [h2] at h
              simp only [Except.ok.injEq, Prod.mk.injEq] at h
              intro p hp
              rw [← h.1] at hp
              rcases List.mem_append.mp hp with hmem | hmem
              · rcases payload? with _ | q
                · cases hmem
                · simp only [Option.toList_some, List.mem_singleton] at hmem
                  subst hmem
                  exact processOne_obs_len env lb sel (some p) limits1 h1 p rfl
              · exact ih ps ls h2 p hmem

theorem aggregateStatus_red_iff (l : List SeriesPayload) :
    aggregateStatus l = "red" ↔ ∃ s ∈ l, s.quality_status = "red" := by
  unfold aggregateStatus
  by_cases hrb : l.any (fun s => s.quality_status == "red")
  · rw [if_pos hrb]
    simp only [List.any_eq_true, beq_iff_eq] at hrb
    exact iff_of_true rfl hrb
  · rw [if_neg hrb]
    have h2 : ¬∃ s ∈ l, s.quality_status = "red" := by
      simpa [List.any_eq_true] using hrb
    refine iff_of_false ?_ h2
    split <;> decide

theorem aggregateStatus_amber_iff (l : List SeriesPayload) :
    aggregateStatus l = "amber" ↔
      ((¬∃ s ∈ l, s.quality_status = "red") ∧ ∃ s ∈ l, s.quality_status = "amber") := by
  unfold aggregateStatus
  by_cases hrb : l.any (fun s => s.quality_status == "red")
  · rw [if_pos hrb]
    simp only [List.any_eq_true, beq_iff_eq] at hrb
    exact iff_of_false (by decide) (fun hc => hc.1 hrb)
  · rw [if_neg hrb]
    have h2 : ¬∃ s ∈ l, s.quality_status = "red" := by
      simpa [List.any_eq_true] using hrb
    by_cases hab : l.any (fun s => s.quality_status == "amber")
    · rw [if_pos hab]
      simp only [List.any_eq_true, beq_iff_eq] at hab
      exact iff_of_true rfl ⟨h2, hab⟩
    · rw [if_neg hab]
      have h3 : ¬∃ s ∈ l, s.quality_status = "amber" := by
        simpa [List.any_eq_true] using hab
      exact iff_of_false (by decide) (fun hc => h3 hc.2)

theorem aggregateStatus_green (l : List SeriesPayload)
    (h1 : ¬∃ s ∈ l, s.quality_status = "red")
    (h2 : ¬∃ s ∈ l, s.quality_status = "amber") :
    aggregateStatus l = "green" := by
  unfold aggregateStatus
  rw [if_neg (by simpa [List.any_eq_true] using h1),
    if_neg (by simpa [List.any_eq_true] using h2)]

/-! ## Fixed inputs used by the concrete theorems -/

/-- A monthly ONS configuration record used by the concrete scenarios. -/
def cfgONS : Config :=
  { provider := "ONS", frequency := some "M", slug := some "cpi",
    series_id := some "L522", unit := some "%", description := some "CPI",
    updated_at := some "2026-01-01" }

/-- A selection resolving to `cfgONS`. -/
def selONS : Selection := { source := "ONS", source_series_id := "L522" }

/-- A period parser for the concrete scenarios: label `"a"` is day 0,
label `"b"` is day 31, anything else does not parse. -/
def parseAB (s : String) : Option Date :=
  if s = "a" then some 0 else if s = "b" then some 31 else none

/-- Collaborators for the hash scenario: one configured monthly series with
a single fresh observation, built at the given `pulled_at` timestamp. -/
def envHash (pulled_at : String) : Collaborators :=
  { find_by_source := fun _ _ => some cfgONS
    fetch_ons_series := fun _ _ _ => [{ period_label := "a", value := some 2 }]
    fetch_oecd_series := fun _ _ _ _ _ _ => []
    parse_period := parseAB
    today := 31
    pulled_at := pulled_at }

/-- Collaborators whose store returns one value-bearing row with an
unparseable period label. -/
def envCrash : Collaborators :=
  { envHash "T" with
    fetch_ons_series := fun _ _ _ => [{ period_label := "x", value := some 5 }] }

/-- Collaborators whose store returns a null-period null-value row first,
then two period-bearing value rows. -/
def envLTF : Collaborators :=
  { envHash "T" with
    fetch_ons_series := fun _ _ _ =>
      [{ period_label := "x", value := none }, { period_label := "a", value := some 2 },
       { period_label := "b", value := some 3 }] }

/-! ## Claim theorems -/

/-- C1: the claim says the `pulled_at` timestamp is excluded from the hashed
subset, so two invocations of `build_data_pack` on identical inputs produce
the identical `data_pack_hash`.  The code hashes
`{"topic": topic, "series": series_payloads}` where each series payload
contains `provenance.pulled_at = datetime.utcnow()`: two invocations of the
same fixed topic, selection, configuration and observation data that differ
only in the current timestamp feed DIFFERENT payloads to `_hash_payload`,
hence different bytes to SHA-256 and different digests. -/
theorem hash_payload_varies_with_pulled_at :
    ((buildDataPack (envHash "2026-01-01T00:00:00Z") "topic" [selONS] {}).toOption.map
        DataPack.data_pack_hash_payload).isSome = true ∧
    (buildDataPack (envHash "2026-01-01T00:00:00Z") "topic" [selONS] {}).toOption.map
        DataPack.data_pack_hash_payload ≠
      (buildDataPack (envHash "2026-01-01T00:00:01Z") "topic" [selONS] {}).toOption.map
        DataPack.data_pack_hash_payload := by decide

/-- C2: the claim says `_derive_stats` (and hence `build_data_pack` over any
fetched rows) never raises for data-quality reasons.  A single observation
with a null (unparseable) period and a non-null value makes `_derive_stats`
raise (`None.isoformat()`; with two or more such retained entries,
`sorted` raises `TypeError` comparing a `None` key), and `build_data_pack`
propagates the exception: both are the error case of the embedding. -/
theorem derive_stats_raises_on_null_period_value :
    (deriveStats [(none, some 5)] "M").isOk = false ∧
    (buildDataPack envCrash "topic" [selONS] {}).isOk = false := by decide

/-- C3: the claim says `_derive_stats` first filters to entries with
non-null period AND non-null value.  The source filter on line 35 checks
only `value is not None`: the entry `(None, 5)` is retained and the call
raises, while the same input with that entry removed (what the claimed
filter would produce) succeeds. -/
theorem derive_stats_does_not_filter_null_periods :
    (deriveStats [(none, some 5), (some 0, some 1)] "M").isOk = false ∧
    (deriveStats [(some 0, some 1)] "M").toOption =
      some { latest_period := some "0", latest_value := some 1,
             min := some 1, max := some 1 } := by decide

/-- C6 counterexample: the claim says the emitted observation list is
filtered-then-limited, so any input with at least `lookback_periods`
period-bearing entries yields exactly `lookback_periods` entries.  With
`lookback_periods = 2` and fetched rows (null-period, day 0, day 31) — two
period-bearing entries — the code truncates FIRST (`observations[:2]` keeps
the null-period row and day 0) and filters second, emitting 1 entry, not 2. -/
theorem emitted_observations_shorter_than_lookback :
    (buildDataPack envLTF "t" [selONS] { lookback_periods := some 2 }).toOption.map
        (fun p => p.series.map (fun s => s.observations.length)) = some [1] ∧
    (periodBearing ((envLTF.fetch_ons_series (some "L522") none 6).map
        (fun row => ((parseAB row.period_label, row.value) : Obs)))).length = 2 := by
  decide

/-- C8 counterexample: the claim says every numeric field of the derived
statistics, including `min` and `max`, is rounded to 4 decimal places.
For the single observation with value 1/100000 the emitted `min` is
1/100000 itself, while its 4-decimal rounding is 0. -/
theorem derived_min_not_rounded :
    (deriveStats [(some 0, some (mkRat 1 100000))] "M").toOption.map DerivedStats.min =
      some (some (mkRat 1 100000)) ∧
    round4 (mkRat 1 100000) ≠ mkRat 1 100000 := by
  constructor
  · decide
  · rw [Rat.mkRat_eq_div]
    norm_num [round4, round_eq]

/-- C4: for every filtered, sorted observation sequence and
periods-per-year `k`, `yoy_change` is emitted exactly when the sequence
has strictly more than `k` points, with value latest minus the value at
index `len - 1 - k`, rounded to 4 decimal places; in particular a monthly
sequence (k = 12) of exactly 12 points has it absent and one of exactly 13
points has it equal to `round4 (latest - value[0])`. -/
theorem yoy_change_iff_more_than_periods_per_year
    (ordered : List (Date × ℚ)) (ppy : Nat) :
    ((deriveStatsOrdered ordered ppy).yoy_change.isSome ↔ ppy < ordered.length) ∧
    (ppy < ordered.length →
      (deriveStatsOrdered ordered ppy).yoy_change =
        some (round4 ((ordered.getD (ordered.length - 1) (0, 0)).2 -
          (ordered.getD (ordered.length - 1 - ppy) (0, 0)).2))) ∧
    (ordered.length = 12 →
      (deriveStatsOrdered ordered (FREQUENCY_TO_PERIODS "M")).yoy_change = none) ∧
    (ordered.length = 13 →
      (deriveStatsOrdered ordered (FREQUENCY_TO_PERIODS "M")).yoy_change =
        some (round4 ((ordered.getD 12 (0, 0)).2 - (ordered.getD 0 (0, 0)).2))) := by
  have hM : FREQUENCY_TO_PERIODS "M" = 12 := rfl
  refine ⟨?_, ?_, ?_, ?_⟩
  · rw [deriveStatsOrdered_yoy]
    split <;> simp_all
  · intro h
    rw [deriveStatsOrdered_yoy, if_pos h]
  · intro h
    rw [deriveStatsOrdered_yoy, hM, h, if_neg (by omega)]
  · intro h
    rw [deriveStatsOrdered_yoy, hM, h, if_pos (by omega)]

/-- A 13-point monthly sequence, oldest to newest, values 1..13. -/
def ord13 : List (Date × ℚ) :=
  [(0, 1), (30, 2), (60, 3), (90, 4), (120, 5), (150, 6), (180, 7), (210, 8),
   (240, 9), (270, 10), (300, 11), (330, 12), (360, 13)]

/-- Witness for C4 at the 13-point monthly sequence: the year-over-year
change is present and equals 13 - 1 = 12. -/
theorem yoy_change_witness :
    (deriveStatsOrdered ord13 (FREQUENCY_TO_PERIODS "M")).yoy_change = some 12 := by
  have h := (yoy_change_iff_more_than_periods_per_year ord13 12).2.2.2 (by decide)
  rw [h]
  norm_num [ord13, round4, round_eq]

/-- C5: with at least one but fewer than 3 period-bearing entries the
status is `"red"` regardless of the check outcomes and the limitation
`"Insufficient lookback window to compute deltas."` is appended; with 3 or
more period-bearing entries the status is `"green"` when every check
passes and `"amber"` when any check fails. -/
theorem quality_floor_red_below_three_points
    (observations : List Obs) (frequency : String) (today : Date) :
    (1 ≤ (periodBearing observations).length → (periodBearing observations).length < 3 →
      (qualityChecks observations frequency today).1 = "red" ∧
      "Insufficient lookback window to compute deltas." ∈
        (qualityChecks observations frequency today).2.2) ∧
    (3 ≤ (periodBearing observations).length →
      (qualityChecks observations frequency today).1 =
        (if ((qualityChecks observations frequency today).2.1).all (fun c => c.ok)
         then "green" else "amber")) := by
  have hlen : (orderedPeriodBearing observations).length = (periodBearing observations).length :=
    length_sortByPeriod _
  constructor
  · intro h1 h3
    have hne : orderedPeriodBearing observations ≠ [] := by
      intro he
      rw [he] at hlen
      simp at hlen
      omega
    obtain ⟨last, hL⟩ := Option.ne_none_iff_exists'.mp
      (fun hnone => hne (List.getLast?_eq_none_iff.mp hnone))
    have hlt : (orderedPeriodBearing observations).length < 3 := by omega
    unfold qualityChecks
    simp only [hL]
    rw [if_pos hlt]
    simp [List.mem_append]
  · intro h3
    have hne : orderedPeriodBearing observations ≠ [] := by
      intro he
      rw [he] at hlen
      simp at hlen
      omega
    obtain ⟨last, hL⟩ := Option.ne_none_iff_exists'.mp
      (fun hnone => hne (List.getLast?_eq_none_iff.mp hnone))
    have hge : ¬ (orderedPeriodBearing observations).length < 3 := by omega
    unfold qualityChecks
    simp only [hL]
    rw [if_neg hge]
    cases hf : (decide (today - last.1 ≤ if frequency = "M" then (40:Int) else 120)) <;>
      cases hm : (decide ((missingLabels (orderedPeriodBearing observations)).length = 0)) <;>
        simp [hf, hm]

/-- Witness for C5: a fresh 2-point monthly series is red with the
insufficient-lookback limitation, and a fresh complete 3-point series is
green. -/
theorem quality_floor_witness :
    ((qualityChecks [(some 0, some 1), (some 31, some 2)] "M" 40).1 = "red" ∧
      "Insufficient lookback window to compute deltas." ∈
        (qualityChecks [(some 0, some 1), (some 31, some 2)] "M" 40).2.2) ∧
    (qualityChecks [(some 0, some 1), (some 31, some 2), (some 60, some 3)] "M" 70).1 =
      "green" := by
  constructor
  · exact (quality_floor_red_below_three_points
      [(some 0, some 1), (some 31, some 2)] "M" 40).1 (by decide) (by decide)
  · have h := (quality_floor_red_below_three_points
      [(some 0, some 1), (some 31, some 2), (some 60, some 3)] "M" 70).2 (by decide)
    exact h.trans (by decide)

/-- C6 amended: the emitted observation list is LIMITED-then-filtered —
the first `lookback_periods` fetched entries with the null-period entries
then removed — so its length is the number of period-bearing entries among
the first `lookback_periods` fetched entries, which is at most
`lookback_periods` but can fall short of it even when the whole fetch
holds at least `lookback_periods` period-bearing entries. -/
theorem emitted_observations_limited_then_filtered
    (env : Collaborators) (lookback : Nat) (sel : Selection) (config : Config)
    (rows : List Row) (payload : SeriesPayload) (limits : List String)
    (hok : processRows env lookback sel config rows = Except.ok (some payload, limits)) :
    payload.observations =
      (((rows.map (fun row => ((env.parse_period row.period_label, row.value) : Obs))).take
          lookback).filter (fun o => o.1.isSome)).map
        (fun o => { period_start := o.1.map isoformat, value := o.2 }) ∧
    payload.observations.length =
      ((rows.map (fun row => ((env.parse_period row.period_label, row.value) : Obs))).take
        lookback).countP (fun o => o.1.isSome) ∧
    payload.observations.length ≤ lookback := by
  have hobs := processRows_obs env lookback sel config rows (some payload) limits hok payload rfl
  rw [hobs, emittedObservations_eq]
  refine ⟨rfl, ?_, ?_⟩
  · rw [List.length_map, List.countP_eq_length_filter]
  · rw [← emittedObservations_eq]
    exact length_emittedObservations_le _ _

/-- Two fetched rows: a null-period null-value row, then one valued row. -/
def rowsW : List Row :=
  [{ period_label := "x", value := none }, { period_label := "a", value := some 2 }]

/-- Collaborators whose store returns `rowsW`. -/
def envW : Collaborators :=
  { envHash "T" with fetch_ons_series := fun _ _ _ => rowsW }

/-- The payload `processRows envW 1 selONS cfgONS rowsW` emits. -/
def payloadW : SeriesPayload :=
  { series_key := some "cpi"
    series_id := "L522"
    source := "ONS"
    source_series_id := "L522"
    name := some "CPI"
    unit := some "%"
    frequency := "M"
    latest_period := some "0"
    observations := []
    derived := { latest_period := some "0", latest_value := some 2,
                 min := some 2, max := some 2 }
    provenance := { pulled_at := "T", ingested_at := some "2026-01-01" }
    quality_status := "red"
    quality_checks :=
      [{ name := "freshness", ok := true, detail := "Latest period 0 (fresh)" },
       { name := "missing_values", ok := true, detail := "0 missing points out of 1" }] }

/-- Witness for the amended C6: with `lookback_periods = 1` and `rowsW`
(whose first entry has no parsed period), the emitted list is empty even
though a period-bearing entry was fetched. -/
theorem emitted_observations_witness :
    payloadW.observations = [] ∧
    payloadW.observations.length = 0 ∧
    payloadW.observations.length ≤ 1 := by
  have h := emitted_observations_limited_then_filtered envW 1 selONS cfgONS rowsW
    payloadW ["Insufficient lookback window to compute deltas."] rfl
  exact ⟨by rw [h.1]; rfl, by rw [h.2.1]; rfl, h.2.2⟩

/-- C7: the pack-level status is `"red"` exactly when some emitted series
is red, `"amber"` exactly when none is red and some is amber, and
`"green"` otherwise; in particular a pack with zero emitted series is
green (the aggregation is a no-op over the empty list), even though a
single included series with no observations is forced red by the quality
evaluator. -/
theorem aggregate_quality_worst_of_emitted_series
    (env : Collaborators) (topic : String) (sels : List Selection)
    (options : Options) (pack : DataPack)
    (h : buildDataPack env topic sels options = Except.ok pack) :
    (pack.quality.status = "red" ↔ ∃ s ∈ pack.series, s.quality_status = "red") ∧
    (pack.quality.status = "amber" ↔
      ((¬∃ s ∈ pack.series, s.quality_status = "red") ∧
        ∃ s ∈ pack.series, s.quality_status = "amber")) ∧
    ((¬∃ s ∈ pack.series, s.quality_status = "red") →
      (¬∃ s ∈ pack.series, s.quality_status = "amber") →
      pack.quality.status = "green") ∧
    (pack.series = [] → pack.quality.status = "green") ∧
    (∀ frequency today, (qualityChecks [] frequency today).1 = "red") := by
  simp only [buildDataPack] at h
  cases hps : processSelections env (options.lookback_periods.getD 24) sels with
  | error e =>
      rw [hps] at h
      simp at h
  | ok pr =>
      obtain ⟨payloads, limits⟩ := pr
      rw [hps] at h
      simp only [Except.ok.injEq] at h
      subst h
      refine ⟨aggregateStatus_red_iff payloads, aggregateStatus_amber_iff payloads,
        aggregateStatus_green payloads, ?_, ?_⟩
      · intro hempty
        simp only at hempty
        subst hempty
        rfl
      · intro frequency today
        rfl

/-- The pack built from zero selections for topic `"t"`. -/
def emptyPackT : DataPack :=
  { topic := "t"
    as_of := "latest"
    lookback_periods := 24
    series := []
    quality := { status := "green"
                 checks := [{ name := "coverage", ok := false,
                              detail := "0 series included." }] }
    data_limitations := []
    data_pack_hash_payload := { topic := "t", series := [] } }

/-- Witness for C7: the empty pack aggregates to green while a series with
no observations is red. -/
theorem aggregate_quality_witness :
    emptyPackT.quality.status = "green" ∧ (qualityChecks [] "M" 0).1 = "red" := by
  have h := aggregate_quality_worst_of_emitted_series (envHash "T") "t" [] {} emptyPackT rfl
  exact ⟨h.2.2.2.1 rfl, h.2.2.2.2 "M" 0⟩

/-- C8 amended: of the numeric fields of the derived statistics only the
four change/average fields are rounded to 4 decimal places (each emitted
value is a fixed point of `round4`); `latest_value`, `min` and `max` are
emitted exactly as computed from the data, unrounded. -/
theorem rounding_covers_changes_and_averages_only
    (ordered : List (Date × ℚ)) (ppy : Nat) :
    ((deriveStatsOrdered ordered ppy).min = (ordered.map (fun p => p.2)).min? ∧
     (deriveStatsOrdered ordered ppy).max = (ordered.map (fun p => p.2)).max?) ∧
    (∀ v, (deriveStatsOrdered ordered ppy).latest_value = some v →
      v = (ordered.getD (ordered.length - 1) (0, 0)).2) ∧
    (∀ c, (deriveStatsOrdered ordered ppy).mom_change = some c → c = round4 c) ∧
    (∀ c, (deriveStatsOrdered ordered ppy).yoy_change = some c → c = round4 c) ∧
    (∀ c, (deriveStatsOrdered ordered ppy).rolling_3m_avg = some c → c = round4 c) ∧
    (∀ c, (deriveStatsOrdered ordered ppy).rolling_12m_avg = some c → c = round4 c) := by
  unfold deriveStatsOrdered
  by_cases h : ordered.isEmpty
  · rw [List.isEmpty_iff] at h
    subst h
    simp
  · simp only [h, Bool.false_eq_true, if_false]
    refine ⟨⟨by first | rfl | trivial, by first | rfl | trivial⟩, ?_, ?_, ?_, ?_, ?_⟩
    · intro v hv
      simp only [Option.some.injEq] at hv
      exact hv.symm
    · intro c hc
      split at hc <;> simp only [Option.some.injEq, reduceCtorEq] at hc
      rw [← hc, round4_round4]
    · intro c hc
      split at hc <;> simp only [Option.some.injEq, reduceCtorEq] at hc
      rw [← hc, round4_round4]
    · intro c hc
      split at hc <;> simp only [Option.some.injEq, reduceCtorEq] at hc
      rw [← hc, round4_round4]
    · intro c hc
      split at hc
      · split at hc <;> simp only [Option.some.injEq, reduceCtorEq] at hc
        rw [← hc, round4_round4]
      · simp at hc

/-- Witness for the amended C8: `min` is the raw minimum and a concrete
emitted change value is a fixed point of the rounding. -/
theorem rounding_witness :
    (deriveStatsOrdered [((0:Int), (5:ℚ)), ((31:Int), (8:ℚ))] 12).min = some 5 ∧
    (3:ℚ) = round4 3 := by
  constructor
  · rw [(rounding_covers_changes_and_averages_only
      [((0:Int), (5:ℚ)), ((31:Int), (8:ℚ))] 12).1.1]
    norm_num [List.min?, min_def]
  · exact (rounding_covers_changes_and_averages_only
      [((0:Int), (5:ℚ)), ((31:Int), (8:ℚ))] 12).2.2.1 3 (by
        norm_num [deriveStatsOrdered, pyTakeLast, listMean, round4, round_eq])

/-- C9: whenever any period-bearing entry exists, the `missing_values`
check is reported with `ok` true exactly when no period-bearing entry has
a null value; with at least one missing value exactly one missing-values
limitation is appended, equal to `"Missing values for "` followed by the
comma-joined FIRST 5 (or fewer) missing period labels — never more than 5
and with no indication of further missing periods; with zero missing
values no such limitation appears (the limitation list decomposes into
the optional staleness and insufficient-lookback strings only). -/
theorem missing_values_check_and_limit_list
    (observations : List Obs) (frequency : String) (today : Date)
    (h : periodBearing observations ≠ []) :
    (∀ c ∈ (qualityChecks observations frequency today).2.1,
      c.name = "missing_values" →
        c.ok = decide ((missingLabels (orderedPeriodBearing observations)).length = 0)) ∧
    (∃ c ∈ (qualityChecks observations frequency today).2.1,
      c.name = "missing_values") ∧
    ((missingLabels (orderedPeriodBearing observations)).take 5).length ≤ 5 ∧
    (missingLabels (orderedPeriodBearing observations) ≠ [] →
      ∃ a b, (a = [] ∨ a = ["Latest data is older than expected cadence."]) ∧
        (b = [] ∨ b = ["Insufficient lookback window to compute deltas."]) ∧
        (qualityChecks observations frequency today).2.2 =
          a ++ ["Missing values for " ++ String.intercalate ", "
            ((missingLabels (orderedPeriodBearing observations)).take 5)] ++ b) ∧
    (missingLabels (orderedPeriodBearing observations) = [] →
      ∃ a b, (a = [] ∨ a = ["Latest data is older than expected cadence."]) ∧
        (b = [] ∨ b = ["Insufficient lookback window to compute deltas."]) ∧
        (qualityChecks observations frequency today).2.2 = a ++ b) := by
  have hne : orderedPeriodBearing observations ≠ [] := by
    intro he
    exact h (List.length_eq_zero.mp (by
      rw [← length_sortByPeriod (periodBearing observations)]
      rw [show sortByPeriod (periodBearing observations) = orderedPeriodBearing observations from rfl]
      rw [he]
      rfl))
  obtain ⟨last, hL⟩ := Option.ne_none_iff_exists'.mp
    (fun hnone => hne (List.getLast?_eq_none_iff.mp hnone))
  unfold qualityChecks
  simp only [hL]
  set missing := missingLabels (orderedPeriodBearing observations) with hmdef
  refine ⟨?_, ?_, List.length_take_le _ _, ?_, ?_⟩
  · intro c hc hname
    split at hc <;>
    · simp only [List.mem_cons, List.not_mem_nil, or_false] at hc
      rcases hc with hc | hc
      · rw [hc] at hname
        simp at hname
      · rw [hc]
  · split <;>
    · exact ⟨_, List.mem_cons_of_mem _ (List.mem_cons_self _ _), rfl⟩
  · intro hm
    have hie : missing.isEmpty = false := by
      rw [List.isEmpty_eq_false_iff_exists_mem]
      rcases missing with _ | ⟨x, xs⟩
      · exact absurd rfl hm
      · exact ⟨x, List.mem_cons_self _ _⟩
    simp only [hie, Bool.false_eq_true, if_false]
    split
    · cases hf : (today - last.1 ≤ if frequency = "M" then (40:Int) else 120 : Bool) <;>
        simp only [hf] <;>
        [exact ⟨["Latest data is older than expected cadence."],
          ["Insufficient lookback window to compute deltas."],
          Or.inr rfl, Or.inr rfl, rfl⟩;
         exact ⟨[], ["Insufficient lookback window to compute deltas."],
          Or.inl rfl, Or.inr rfl, rfl⟩]
    · cases hf : (today - last.1 ≤ if frequency = "M" then (40:Int) else 120 : Bool) <;>
        simp only [hf] <;>
        [exact ⟨["Latest data is older than expected cadence."], [],
          Or.inr rfl, Or.inl rfl, by simp⟩;
         exact ⟨[], [], Or.inl rfl, Or.inl rfl, by simp⟩]
  · intro hm
    have hie : missing.isEmpty = true := by
      rw [hm]
      rfl
    simp only [hie, if_true]
    split
    · cases hf : (today - last.1 ≤ if frequency = "M" then (40:Int) else 120 : Bool) <;>
        simp only [hf] <;>
        [exact ⟨["Latest data is older than expected cadence."],
          ["Insufficient lookback window to compute deltas."],
          Or.inr rfl, Or.inr rfl, rfl⟩;
         exact ⟨[], ["Insufficient lookback window to compute deltas."],
          Or.inl rfl, Or.inr rfl, rfl⟩]
    · cases hf : (today - last.1 ≤ if frequency = "M" then (40:Int) else 120 : Bool) <;>
        simp only [hf] <;>
        [exact ⟨["Latest data is older than expected cadence."], [],
          Or.inr rfl, Or.inl rfl, by simp⟩;
         exact ⟨[], [], Or.inl rfl, Or.inl rfl, by simp⟩]

/-- Ten monthly period-bearing entries whose first seven values are null. -/
def obs9 : List Obs :=
  [(some 0, none), (some 31, none), (some 62, none), (some 93, none),
   (some 124, none), (some 155, none), (some 186, none),
   (some 217, some 1), (some 248, some 2), (some 279, some 3)]

/-- Witness for C9: with seven missing values the single limitation lists
exactly the first five missing period labels. -/
theorem missing_values_witness :
    missingLabels (orderedPeriodBearing obs9) ≠ [] ∧
    (∃ a b, (a = [] ∨ a = ["Latest data is older than expected cadence."]) ∧
      (b = [] ∨ b = ["Insufficient lookback window to compute deltas."]) ∧
      (qualityChecks obs9 "M" 300).2.2 =
        a ++ ["Missing values for " ++ String.intercalate ", "
          ((missingLabels (orderedPeriodBearing obs9)).take 5)] ++ b) ∧
    (qualityChecks obs9 "M" 300).2.2 = ["Missing values for 0, 31, 62, 93, 124"] := by
  refine ⟨by decide, ?_, by decide⟩
  exact (missing_values_check_and_limit_list obs9 "M" 300 (by decide)).2.2.2.1 (by decide)

/-- C10: when the options mapping lacks `lookback_periods` the default 24
is used: the pack field `lookback_periods` is 24, every emitted series
holds at most 24 observations, and the fetchers are only ever consulted at
limit `max(24 + 4, 12) = 28` (replacing them by fetchers hard-wired to
limit 28 changes nothing). -/
theorem default_lookback_is_24 (env : Collaborators) (topic : String)
    (sels : List Selection) (options : Options)
    (h : options.lookback_periods = none) :
    buildDataPack env topic sels options =
      buildDataPack
        { env with
          fetch_ons_series := fun a b _ => env.fetch_ons_series a b 28
          fetch_oecd_series := fun a b c d e _ => env.fetch_oecd_series a b c d e 28 }
        topic sels options ∧
    fetchLimit 24 = 28 ∧
    (∀ pack, buildDataPack env topic sels options = Except.ok pack →
      pack.lookback_periods = 24 ∧ ∀ s ∈ pack.series, s.observations.length ≤ 24) := by
  refine ⟨?_, rfl, ?_⟩
  · simp only [buildDataPack, h, Option.getD_none]
    rw [← processSelections_fetch28]
  · intro pack hp
    simp only [buildDataPack, h, Option.getD_none] at hp
    cases hps : processSelections env 24 sels with
    | error e => rw [hps] at hp; simp at hp
    | ok pr =>
        obtain ⟨payloads, limits⟩ := pr
        rw [hps] at hp
        simp only [Except.ok.injEq] at hp
        subst hp
        exact ⟨rfl, processSelections_obs_len env 24 sels payloads limits hps⟩

/-- Witness for C10: the defaulted fetch limit is 28 and the pack built
with no `lookback_periods` option records 24. -/
theorem default_lookback_witness :
    fetchLimit 24 = 28 ∧ emptyPackT.lookback_periods = 24 := by
  have h := default_lookback_is_24 (envHash "T") "t" [] {} rfl
  exact ⟨h.2.1, (h.2.2 emptyPackT rfl).1⟩

end DataPackBuilder
